import Mathlib

/-!
Shallow embedding of the IntelliFire Home Assistant integration
(custom_components/intellifire_hacs): the dual-mode update coordinator of
coordinator.py, the mode sensors of sensor.py, the command routing of
switch.py, and the initialization wait of __init__.py, together with
theorems settling the specification's claims about them.

The two transport handles (IntelliFireAPILocal / IntelliFireAPICloud) live
in the external intellifire4py library; their state and the effect of the
calls the coordinator makes into them (start_background_polling,
stop_background_polling, overwrite_data, poll) are modelled from the
specification's description of that interface (spec sections 3 and 6).
Everything else is translated directly from the repository's source.
-/

namespace IntelliFire

/-- Transport selection mode, from intellifire4py.const.IntelliFireApiMode,
with its two values LOCAL and CLOUD. -/
inductive IntelliFireApiMode where
  | LOCAL
  | CLOUD
deriving DecidableEq

/-- Cached device status snapshot (intellifire4py.model.IntelliFirePollData),
restricted to the fields the claims read. -/
structure IntelliFirePollData where
  is_on : Bool
  pilot_on : Bool
  serial : String
  fw_ver_str : String
  ipv4_address : String
deriving DecidableEq

/-- State of one transport handle of the external intellifire4py library,
modelled from the spec (sections 3 and 6): a cached snapshot, a flag telling
whether the background polling loop is active, the count of consecutive
failed poll attempts, and (meaningful for the local transport only) the
configured fireplace IP address. -/
structure IntelliFireAPIState where
  data : IntelliFirePollData
  is_polling_in_background : Bool
  failed_poll_attempts : Nat
  fireplace_ip : String
deriving DecidableEq

/-- stop_background_polling on a transport handle: clears the
background-polling flag (spec section 3: the transport tracks whether its
background polling loop is active). -/
def IntelliFireAPIState.stop_background_polling (a : IntelliFireAPIState) : IntelliFireAPIState :=
  { a with is_polling_in_background := false }

/-- start_background_polling on a transport handle: sets the
background-polling flag. -/
def IntelliFireAPIState.start_background_polling (a : IntelliFireAPIState) : IntelliFireAPIState :=
  { a with is_polling_in_background := true }

/-- overwrite_data on a transport handle: replaces its cached snapshot
(spec section 3: each transport can be told to overwrite its cached snapshot
from another transport's snapshot). -/
def IntelliFireAPIState.overwrite_data (a : IntelliFireAPIState) (d : IntelliFirePollData) : IntelliFireAPIState :=
  { a with data := d }

/-- Identity of a transport object: the coordinator holds exactly two,
self._local_api and self._cloud_api (coordinator.py lines 40-41). -/
inductive Transport where
  | localApi
  | cloudApi
deriving DecidableEq

/-- State of IntelliFireDataUpdateCoordinator (coordinator.py lines 25-43):
the two transport handles and the two independent mode flags. -/
structure Coordinator where
  _local_api : IntelliFireAPIState
  _cloud_api : IntelliFireAPIState
  _read_mode : IntelliFireApiMode
  _control_mode : IntelliFireApiMode
deriving DecidableEq

/-- Dereference a transport identity to the coordinator's handle for it. -/
def Coordinator.api (c : Coordinator) : Transport → IntelliFireAPIState
  | Transport.localApi => c._local_api
  | Transport.cloudApi => c._cloud_api

/-- Replace the handle a transport identity refers to. -/
def Coordinator.setApi (c : Coordinator) : Transport → IntelliFireAPIState → Coordinator
  | Transport.localApi, a => { c with _local_api := a }
  | Transport.cloudApi, a => { c with _cloud_api := a }

/-- get_read_api (coordinator.py lines 45-49): return self._local_api when
_read_mode is LOCAL, else self._cloud_api. The embedding returns the
identity of the object the source returns; the method performs no writes. -/
def get_read_api (c : Coordinator) : Transport :=
  if c._read_mode = IntelliFireApiMode.LOCAL then Transport.localApi else Transport.cloudApi

/-- get_control_api (coordinator.py lines 51-56): return self._local_api when
_control_mode is LOCAL, else self._cloud_api; no writes. -/
def get_control_api (c : Coordinator) : Transport :=
  if c._control_mode = IntelliFireApiMode.LOCAL then Transport.localApi else Transport.cloudApi

/-- get_read_mode (coordinator.py lines 58-60). -/
def get_read_mode (c : Coordinator) : IntelliFireApiMode :=
  c._read_mode

/-- get_control_mode (coordinator.py lines 67-69). -/
def get_control_mode (c : Coordinator) : IntelliFireApiMode :=
  c._control_mode

/-- set_read_mode (coordinator.py lines 62-65): assigns the read-mode flag. -/
def set_read_mode (c : Coordinator) (mode : IntelliFireApiMode) : Coordinator :=
  { c with _read_mode := mode }

/-- One call made by set_control_mode into a transport handle, recorded in
the order the source makes them. -/
inductive ApiEffect where
  | stopPolling (t : Transport)
  | overwriteData (t : Transport) (d : IntelliFirePollData)
  | startPolling (t : Transport)
deriving DecidableEq

/-- set_control_mode (coordinator.py lines 71-97): early-return when the
requested mode equals the current one; otherwise run the handover of the
branch matching the saved current_mode.  The source never assigns
self._control_mode.  Returns the new coordinator state together with the
list of transport calls made, in order. -/
def set_control_mode (c : Coordinator) (mode : IntelliFireApiMode) :
    Coordinator × List ApiEffect :=
  let current_mode := c._control_mode
  if current_mode = mode then
    (c, [])
  else
    let step1 :=
      if current_mode = IntelliFireApiMode.LOCAL then
        let cA := { c with _local_api := c._local_api.stop_background_polling }
        let cB := { cA with _cloud_api := cA._cloud_api.overwrite_data cA._local_api.data }
        let cC := { cB with _cloud_api := cB._cloud_api.start_background_polling }
        (cC, [ApiEffect.stopPolling Transport.localApi,
              ApiEffect.overwriteData Transport.cloudApi cA._local_api.data,
              ApiEffect.startPolling Transport.cloudApi])
      else
        (c, ([] : List ApiEffect))
    let c1 := step1.1
    if current_mode = IntelliFireApiMode.CLOUD then
      let cA := { c1 with _cloud_api := c1._cloud_api.stop_background_polling }
      let cB := { cA with _local_api := cA._local_api.overwrite_data cA._cloud_api.data }
      let cC := { cB with _local_api := cB._local_api.start_background_polling }
      (cC, step1.2 ++ [ApiEffect.stopPolling Transport.cloudApi,
                       ApiEffect.overwriteData Transport.localApi cA._cloud_api.data,
                       ApiEffect.startPolling Transport.localApi])
    else
      (c1, step1.2)

/-- The error raised by _async_update_data
(homeassistant.helpers.update_coordinator.UpdateFailed). -/
inductive CoordinatorError where
  | updateFailed
deriving DecidableEq

/-- One observable action of a refresh cycle. -/
inductive RefreshEffect where
  | startPolling (t : Transport)
  | syncLocalPoll (timeoutSeconds : Nat)
deriving DecidableEq

/-- Timeout in seconds on the forced synchronous local poll
(coordinator.py line 112: async with timeout(15)). -/
def FORCED_POLL_TIMEOUT_SECONDS : Nat := 15

/-- Behaviour of one call to self._local_api.poll() in the external
library: it either succeeds, yielding the local transport's new state, or
raises a connection error (ConnectionError / ClientConnectionError), the
exceptions coordinator.py line 115 catches. -/
abbrev LocalPollFn := IntelliFireAPIState → Except Unit IntelliFireAPIState

/-- Tail of _async_update_data (coordinator.py lines 118-123): raise
UpdateFailed when the local transport reports more than 10 consecutive
failed poll attempts, otherwise return the read transport's snapshot. -/
def updateDataFinish (c : Coordinator) (effs : List RefreshEffect) :
    List RefreshEffect × Except CoordinatorError (Coordinator × IntelliFirePollData) :=
  if c._local_api.failed_poll_attempts > 10 then
    (effs, Except.error CoordinatorError.updateFailed)
  else
    (effs, Except.ok (c, (c.api (get_read_api c)).data))

/-- _async_update_data (coordinator.py lines 99-123): select the read
transport; if it is not polling in background, start it and, when the read
mode is LOCAL, run one forced synchronous poll under the 15-second timeout,
turning a connection error into UpdateFailed; then apply the failure-count
check and return the read transport's snapshot.  Returns the list of
observable actions together with the outcome. -/
def _async_update_data (c : Coordinator) (pollLocal : LocalPollFn) :
    List RefreshEffect × Except CoordinatorError (Coordinator × IntelliFirePollData) :=
  let read_api := get_read_api c
  let read_mode := get_read_mode c
  if (c.api read_api).is_polling_in_background then
    updateDataFinish c []
  else
    let c1 := c.setApi read_api ((c.api read_api).start_background_polling)
    if read_mode = IntelliFireApiMode.LOCAL then
      match pollLocal c1._local_api with
      | Except.error _ =>
          ([RefreshEffect.startPolling read_api,
            RefreshEffect.syncLocalPoll FORCED_POLL_TIMEOUT_SECONDS],
           Except.error CoordinatorError.updateFailed)
      | Except.ok la =>
          updateDataFinish { c1 with _local_api := la }
            [RefreshEffect.startPolling read_api,
             RefreshEffect.syncLocalPoll FORCED_POLL_TIMEOUT_SECONDS]
    else
      updateDataFinish c1 [RefreshEffect.startPolling read_api]

/-- The record built by the device_info property. -/
structure DeviceInfo where
  manufacturer : String
  model : String
  name : String
  identifiers : String
  sw_version : String
  configuration_url : String
deriving DecidableEq

/-- device_info property (coordinator.py lines 125-137): reads
get_read_api().data at access time; identifiers keeps the source's stray
closing bracket; configuration_url is built from
self._local_api.fireplace_ip. -/
def device_info (c : Coordinator) : DeviceInfo :=
  let data := (c.api (get_read_api c)).data
  { manufacturer := "Hearth and Home"
    model := "IFT-WFM"
    name := "IntelliFire"
    identifiers := data.serial ++ "]"
    sw_version := data.fw_ver_str
    configuration_url := "http://" ++ c._local_api.fireplace_ip ++ "/poll" }

/-- Python's IntelliFireApiMode.X.name.lower(). -/
def IntelliFireApiMode.nameLower : IntelliFireApiMode → String
  | IntelliFireApiMode.LOCAL => "local"
  | IntelliFireApiMode.CLOUD => "cloud"

/-- value_fn of the INTELLIFIRE_SENSORS descriptor with key "control_mode"
(sensor.py line 140): coordinator.get_read_mode().name.lower(). -/
def control_mode_sensor_value (c : Coordinator) : String :=
  (get_read_mode c).nameLower

/-- value_fn of the INTELLIFIRE_SENSORS descriptor with key "read_mode"
(sensor.py line 148): coordinator.get_control_mode().name.lower(). -/
def read_mode_sensor_value (c : Coordinator) : String :=
  (get_control_mode c).nameLower

/-- Transport the on_off switch's flame_on command is sent to
(switch.py line 40: coordinator.get_control_api().flame_on()). -/
def flame_on_target (c : Coordinator) : Transport :=
  get_control_api c

/-- Transport handle associated with a mode flag. -/
def transportFor : IntelliFireApiMode → Transport
  | IntelliFireApiMode.LOCAL => Transport.localApi
  | IntelliFireApiMode.CLOUD => Transport.cloudApi

/-- Equality of Except values is decidable when it is so on both components. -/
instance {ε α : Type} [DecidableEq ε] [DecidableEq α] : DecidableEq (Except ε α) := fun x y =>
  match x, y with
  | Except.error a, Except.error b =>
      if h : a = b then Decidable.isTrue (by rw [h])
      else Decidable.isFalse (by intro hh; injection hh; contradiction)
  | Except.error _, Except.ok _ => Decidable.isFalse (by intro hh; exact Except.noConfusion hh)
  | Except.ok _, Except.error _ => Decidable.isFalse (by intro hh; exact Except.noConfusion hh)
  | Except.ok a, Except.ok b =>
      if h : a = b then Decidable.isTrue (by rw [h])
      else Decidable.isFalse (by intro hh; injection hh; contradiction)

/-- Seconds slept between initialization checks
(__init__.py line 181: asyncio.sleep(10)). -/
def INIT_POLL_SLEEP_SECONDS : Nat := 10

/-- Bound in seconds on the whole initialization wait
(__init__.py lines 133-135: asyncio.wait_for(..., timeout=600)). -/
def INIT_WAIT_TIMEOUT_SECONDS : Nat := 600

/-- Number of checks the 600-second budget admits at one check per
10 seconds of sleep. -/
def INIT_MAX_CHECKS : Nat := INIT_WAIT_TIMEOUT_SECONDS / INIT_POLL_SLEEP_SECONDS

/-- Loop condition of _async_wait_for_initialization (__init__.py lines
177-179): keep waiting while the address is still 127.0.0.1 AND the serial
is still "unset". -/
def initialization_pending (d : IntelliFirePollData) : Bool :=
  d.ipv4_address == "127.0.0.1" && d.serial == "unset"

/-- Busy-wait loop of _async_wait_for_initialization under the
asyncio.wait_for bound of the call site: dataAt i is the snapshot the loop
observes at its i-th check (the checks are 10 seconds apart); fuel is the
number of checks the 600-second budget allows.  Returns the index of the
check at which the loop exited, or none when the budget runs out first. -/
def waitForInitializationLoop (dataAt : Nat → IntelliFirePollData) :
    Nat → Nat → Option Nat
  | _, 0 => none
  | i, fuel + 1 =>
      if initialization_pending (dataAt i) then
        waitForInitializationLoop dataAt (i + 1) fuel
      else
        some i

/-- How a setup failure is signalled to Home Assistant:
ConfigEntryAuthFailed (__init__.py lines 112 and 129), the plain
TimeoutError of line 137, or Home Assistant's ConfigEntryNotReady (the
dedicated not-ready signal, which this integration never raises). -/
inductive SetupError where
  | authFailed
  | initTimeout
  | notReady
deriving DecidableEq

/-- Slice of async_setup_entry (__init__.py lines 105-146) through the end
of the initialization wait: the credential-format check, the connectivity
validation, then the bounded busy-wait; on success it returns the index of
the check at which the device stopped reporting the placeholder identity. -/
def async_setup_entry (hasUsername : Bool) (local_connect cloud_connect : Bool)
    (dataAt : Nat → IntelliFirePollData) : Except SetupError Nat :=
  if !hasUsername then Except.error SetupError.authFailed
  else if !local_connect && !cloud_connect then Except.error SetupError.authFailed
  else
    match waitForInitializationLoop dataAt 0 INIT_MAX_CHECKS with
    | none => Except.error SetupError.initTimeout
    | some i => Except.ok i

/-- A concrete local snapshot used by witnesses and counterexamples. -/
def sampleData : IntelliFirePollData :=
  { is_on := false
    pilot_on := false
    serial := "ABC123"
    fw_ver_str := "1.0.0"
    ipv4_address := "192.168.1.50" }

/-- A concrete cloud snapshot, distinct from sampleData. -/
def sampleDataCloud : IntelliFirePollData :=
  { is_on := true
    pilot_on := false
    serial := "XYZ789"
    fw_ver_str := "2.0.0"
    ipv4_address := "10.0.0.9" }

/-- A local transport handle whose background polling is running. -/
def sampleLocalApi : IntelliFireAPIState :=
  { data := sampleData
    is_polling_in_background := true
    failed_poll_attempts := 0
    fireplace_ip := "192.168.1.50" }

/-- A cloud transport handle that is not polling. -/
def sampleCloudApi : IntelliFireAPIState :=
  { data := sampleDataCloud
    is_polling_in_background := false
    failed_poll_attempts := 0
    fireplace_ip := "" }

/-- A coordinator reading and controlling locally. -/
def sampleCoordinatorLocal : Coordinator :=
  { _local_api := sampleLocalApi
    _cloud_api := sampleCloudApi
    _read_mode := IntelliFireApiMode.LOCAL
    _control_mode := IntelliFireApiMode.LOCAL }

/-- A coordinator with read mode CLOUD and control mode LOCAL. -/
def mixedModeCoordinator : Coordinator :=
  { sampleCoordinatorLocal with _read_mode := IntelliFireApiMode.CLOUD }

/-- A coordinator whose local transport has 11 consecutive failed polls and
is not polling in background, with read mode LOCAL. -/
def overflowCoordinator : Coordinator :=
  { sampleCoordinatorLocal with
    _local_api := { sampleLocalApi with
                    is_polling_in_background := false
                    failed_poll_attempts := 11 } }

/-- The overflowed coordinator with the cloud transport as read source. -/
def cloudReadOverflowCoordinator : Coordinator :=
  { overflowCoordinator with _read_mode := IntelliFireApiMode.CLOUD }

/-- A coordinator not yet polling its (local) read transport. -/
def freshCoordinator : Coordinator :=
  { sampleCoordinatorLocal with
    _local_api := { sampleLocalApi with is_polling_in_background := false } }

/-- A local poll behaviour that always succeeds and, as the spec's
"consecutive failed poll attempts" prescribes, resets the failure count. -/
def resettingPoll : LocalPollFn :=
  fun a => Except.ok { a with failed_poll_attempts := 0 }

/-- A local poll behaviour that succeeds and leaves the handle unchanged. -/
def idlePoll : LocalPollFn :=
  fun a => Except.ok a

/-- A local poll behaviour that always raises a connection error. -/
def failingPoll : LocalPollFn :=
  fun _ => Except.error ()

/-- The factory-default identity the initialization wait polls against. -/
def placeholderData : IntelliFirePollData :=
  { is_on := false
    pilot_on := false
    serial := "unset"
    fw_ver_str := "0.0.0"
    ipv4_address := "127.0.0.1" }

/-- A device reporting a real address while its serial is still the
placeholder "unset". -/
def halfInitializedData : IntelliFirePollData :=
  { placeholderData with ipv4_address := "192.168.1.50" }

/-- Coordinator for the C9 counterexample: cloud read mode, local control. -/
def cloudReadCoordinatorA : Coordinator :=
  { _local_api := sampleLocalApi
    _cloud_api := sampleCloudApi
    _read_mode := IntelliFireApiMode.CLOUD
    _control_mode := IntelliFireApiMode.LOCAL }

/-- Same as cloudReadCoordinatorA except for the locally configured
fireplace IP; its read transport and snapshot are identical. -/
def cloudReadCoordinatorB : Coordinator :=
  { cloudReadCoordinatorA with
    _local_api := { sampleLocalApi with fireplace_ip := "192.168.9.99" } }

/-- C1: evaluation at the failing input.  Starting from control mode LOCAL,
set_control_mode(CLOUD) runs the full stop/copy/start handover, yet
get_control_mode still answers LOCAL and get_control_api still selects the
local transport, so a subsequent flame_on routes to the LOCAL transport —
not to the cloud transport as the claim (and the source's own docstring and
log message) state.  The slip: set_control_mode never assigns
self._control_mode. -/
theorem claim_C1_flame_routing_stays_local :
    (set_control_mode sampleCoordinatorLocal IntelliFireApiMode.CLOUD).2 =
      [ApiEffect.stopPolling Transport.localApi,
       ApiEffect.overwriteData Transport.cloudApi sampleData,
       ApiEffect.startPolling Transport.cloudApi] ∧
    get_control_mode (set_control_mode sampleCoordinatorLocal IntelliFireApiMode.CLOUD).1 =
      IntelliFireApiMode.LOCAL ∧
    get_control_api (set_control_mode sampleCoordinatorLocal IntelliFireApiMode.CLOUD).1 =
      Transport.localApi ∧
    flame_on_target (set_control_mode sampleCoordinatorLocal IntelliFireApiMode.CLOUD).1 =
      Transport.localApi :=
  ⟨rfl, rfl, rfl, rfl⟩

/-- C2: set_control_mode never writes the control-mode flag: for every
coordinator state and every requested mode, get_control_mode returns the
same value after the call as before it, including when the call performs
the full stop/copy/start handover. -/
theorem claim_C2_control_mode_flag_never_written (c : Coordinator)
    (mode : IntelliFireApiMode) :
    get_control_mode (set_control_mode c mode).1 = get_control_mode c := by
  obtain ⟨la, ca, rm, cm⟩ := c
  cases cm <;> cases mode <;> rfl

/-- C3: for every pair of mode flags, get_read_api selects the local
transport exactly when the read mode is LOCAL and the cloud transport
exactly when it is CLOUD, and get_control_api does the same for the control
mode; both selectors are pure functions of the coordinator state (they are
embedded as state-to-value functions because the source methods perform no
writes). -/
theorem claim_C3_transport_selectors (c : Coordinator) :
    (get_read_api c = Transport.localApi ↔ c._read_mode = IntelliFireApiMode.LOCAL) ∧
    (get_read_api c = Transport.cloudApi ↔ c._read_mode = IntelliFireApiMode.CLOUD) ∧
    (get_control_api c = Transport.localApi ↔ c._control_mode = IntelliFireApiMode.LOCAL) ∧
    (get_control_api c = Transport.cloudApi ↔ c._control_mode = IntelliFireApiMode.CLOUD) := by
  obtain ⟨la, ca, rm, cm⟩ := c
  cases rm <;> cases cm <;> simp [get_read_api, get_control_api]

/-- Concrete instantiation of claim_C3_transport_selectors: with read mode
CLOUD and control mode LOCAL, reads select the cloud transport and commands
the local one. -/
theorem claim_C3_witness :
    get_read_api mixedModeCoordinator = Transport.cloudApi ∧
    get_control_api mixedModeCoordinator = Transport.localApi :=
  ⟨(claim_C3_transport_selectors mixedModeCoordinator).2.1.mpr rfl,
   (claim_C3_transport_selectors mixedModeCoordinator).2.2.1.mpr rfl⟩

/-- C4: a mode-changing set_control_mode stops background polling on the
current mode's transport, copies that transport's snapshot into the target
transport, and starts background polling on the target, in exactly that
order; afterwards the target transport's cached snapshot equals the old
transport's snapshot at the moment of the switch, the old transport is no
longer polling, and the target is. -/
theorem claim_C4_handover_stop_copy_start (c : Coordinator) (mode : IntelliFireApiMode)
    (h : c._control_mode ≠ mode) :
    (set_control_mode c mode).2 =
      [ApiEffect.stopPolling (transportFor c._control_mode),
       ApiEffect.overwriteData (transportFor mode) ((c.api (transportFor c._control_mode)).data),
       ApiEffect.startPolling (transportFor mode)] ∧
    ((set_control_mode c mode).1.api (transportFor mode)).data =
      (c.api (transportFor c._control_mode)).data ∧
    ((set_control_mode c mode).1.api (transportFor c._control_mode)).is_polling_in_background
      = false ∧
    ((set_control_mode c mode).1.api (transportFor mode)).is_polling_in_background = true := by
  obtain ⟨la, ca, rm, cm⟩ := c
  cases cm <;> cases mode <;> first
    | exact absurd rfl h
    | exact ⟨rfl, rfl, rfl, rfl⟩

/-- Concrete instantiation of claim_C4_handover_stop_copy_start at a
LOCAL-to-CLOUD switch. -/
theorem claim_C4_witness :
    (set_control_mode sampleCoordinatorLocal IntelliFireApiMode.CLOUD).2 =
      [ApiEffect.stopPolling Transport.localApi,
       ApiEffect.overwriteData Transport.cloudApi sampleData,
       ApiEffect.startPolling Transport.cloudApi] ∧
    ((set_control_mode sampleCoordinatorLocal IntelliFireApiMode.CLOUD).1.api
        Transport.cloudApi).data = sampleData ∧
    ((set_control_mode sampleCoordinatorLocal IntelliFireApiMode.CLOUD).1.api
        Transport.localApi).is_polling_in_background = false ∧
    ((set_control_mode sampleCoordinatorLocal IntelliFireApiMode.CLOUD).1.api
        Transport.cloudApi).is_polling_in_background = true :=
  claim_C4_handover_stop_copy_start sampleCoordinatorLocal IntelliFireApiMode.CLOUD
    (by decide)

/-- C5: requesting the mode already in force is a no-op: the coordinator
state is returned unchanged and no transport call at all is made (in
particular no stop_background_polling, overwrite_data or
start_background_polling). -/
theorem claim_C5_set_control_mode_noop (c : Coordinator) (mode : IntelliFireApiMode)
    (h : c._control_mode = mode) :
    set_control_mode c mode = (c, []) := by
  simp [set_control_mode, h]

/-- Concrete instantiation of claim_C5_set_control_mode_noop: requesting
LOCAL while already in LOCAL control mode changes nothing and calls
nothing. -/
theorem claim_C5_witness :
    set_control_mode sampleCoordinatorLocal IntelliFireApiMode.LOCAL =
      (sampleCoordinatorLocal, []) :=
  claim_C5_set_control_mode_noop sampleCoordinatorLocal IntelliFireApiMode.LOCAL rfl

/-- C10: the diagnostic sensor keyed "control_mode" computes its value from
get_read_mode and the sensor keyed "read_mode" computes its value from
get_control_mode; whenever the two flags differ, each of the two sensors
therefore shows the other flag's value, not its own. -/
theorem claim_C10_mode_sensors_swapped (c : Coordinator) :
    control_mode_sensor_value c = (get_read_mode c).nameLower ∧
    read_mode_sensor_value c = (get_control_mode c).nameLower ∧
    (c._read_mode ≠ c._control_mode →
      control_mode_sensor_value c ≠ (get_control_mode c).nameLower ∧
      read_mode_sensor_value c ≠ (get_read_mode c).nameLower) := by
  refine ⟨rfl, rfl, fun h => ?_⟩
  obtain ⟨la, ca, rm, cm⟩ := c
  cases rm <;> cases cm <;> first
    | exact absurd rfl h
    | exact ⟨show ("local" : String) ≠ "cloud" by decide,
             show ("cloud" : String) ≠ "local" by decide⟩
    | exact ⟨show ("cloud" : String) ≠ "local" by decide,
             show ("local" : String) ≠ "cloud" by decide⟩

/-- Concrete instantiation of claim_C10_mode_sensors_swapped: with read
mode CLOUD and control mode LOCAL, neither mode sensor reports its own
flag. -/
theorem claim_C10_witness :
    control_mode_sensor_value mixedModeCoordinator ≠
      (get_control_mode mixedModeCoordinator).nameLower ∧
    read_mode_sensor_value mixedModeCoordinator ≠
      (get_read_mode mixedModeCoordinator).nameLower :=
  (claim_C10_mode_sensors_swapped mixedModeCoordinator).2.2 (by decide)

/-- C6 amended: when the local transport reports more than 10 consecutive
failed poll attempts, a refresh raises the generic update-failed error for
both read modes whenever the read mode is CLOUD, or the local transport's
background polling is already running, or the forced synchronous poll
itself fails with a connection error; the single escape is a successful
forced poll (read mode LOCAL, polling not yet running) that brings the
consecutive-failure count back under the threshold. -/
theorem claim_C6_failure_threshold (c : Coordinator) (pollLocal : LocalPollFn)
    (h : c._local_api.failed_poll_attempts > 10)
    (hcase : get_read_mode c = IntelliFireApiMode.CLOUD ∨
             c._local_api.is_polling_in_background = true ∨
             pollLocal (c._local_api.start_background_polling) = Except.error ()) :
    (_async_update_data c pollLocal).2 = Except.error CoordinatorError.updateFailed := by
  obtain ⟨la, ca, rm, cm⟩ := c
  cases rm
  case LOCAL =>
    cases hb : la.is_polling_in_background
    case true =>
      simp [_async_update_data, updateDataFinish, get_read_api, get_read_mode,
            Coordinator.api, hb, h]
    case false =>
      rcases hcase with hc | hc | hc
      · exact absurd hc (by simp [get_read_mode])
      · rw [hb] at hc
        exact absurd hc (by simp)
      · simp [_async_update_data, updateDataFinish, get_read_api, get_read_mode,
              Coordinator.api, Coordinator.setApi, hb, hc]
  case CLOUD =>
    cases hb : ca.is_polling_in_background
    case true =>
      simp [_async_update_data, updateDataFinish, get_read_api, get_read_mode,
            Coordinator.api, hb, h]
    case false =>
      simp [_async_update_data, updateDataFinish, get_read_api, get_read_mode,
            Coordinator.api, Coordinator.setApi, hb, h]

/-- Concrete instantiation of claim_C6_failure_threshold: 11 consecutive
local failures with the cloud transport as active read source still fail
the refresh. -/
theorem claim_C6_witness :
    (_async_update_data cloudReadOverflowCoordinator idlePoll).2 =
      Except.error CoordinatorError.updateFailed :=
  claim_C6_failure_threshold cloudReadOverflowCoordinator idlePoll (by decide) (Or.inl rfl)

/-- C6 counterexample: with 11 consecutive failed local polls, read mode
LOCAL and background polling not yet running, a successful forced
synchronous poll that resets the consecutive-failure count (as the spec's
"consecutive failed poll attempts" prescribes for the external library)
lets the refresh return a snapshot instead of raising: the claim's "for
every coordinator state ... for both values of read_mode" fails at this
state. -/
theorem claim_C6_counterexample :
    overflowCoordinator._local_api.failed_poll_attempts > 10 ∧
    (_async_update_data overflowCoordinator resettingPoll).2 ≠
      Except.error CoordinatorError.updateFailed := by
  refine ⟨by decide, ?_⟩
  decide

/-- C7: a refresh starts the selected read transport's background polling
exactly when it is not already running; the forced synchronous poll, run
under the FORCED_POLL_TIMEOUT_SECONDS = 15 second timeout, happens exactly
when additionally the read mode is LOCAL; a connection error in that poll
surfaces as the generic update-failed error; and when no error path is
taken the refresh returns the active read transport's current snapshot. -/
theorem claim_C7_refresh_behaviour (c : Coordinator) (pollLocal : LocalPollFn) :
    (RefreshEffect.startPolling (get_read_api c) ∈ (_async_update_data c pollLocal).1 ↔
      (c.api (get_read_api c)).is_polling_in_background = false) ∧
    (RefreshEffect.syncLocalPoll FORCED_POLL_TIMEOUT_SECONDS ∈
        (_async_update_data c pollLocal).1 ↔
      ((c.api (get_read_api c)).is_polling_in_background = false ∧
        get_read_mode c = IntelliFireApiMode.LOCAL)) ∧
    FORCED_POLL_TIMEOUT_SECONDS = 15 ∧
    ((c.api (get_read_api c)).is_polling_in_background = false →
      get_read_mode c = IntelliFireApiMode.LOCAL →
      pollLocal (c._local_api.start_background_polling) = Except.error () →
      (_async_update_data c pollLocal).2 = Except.error CoordinatorError.updateFailed) ∧
    (∀ c' d, (_async_update_data c pollLocal).2 = Except.ok (c', d) →
      d = (c'.api (get_read_api c)).data) := by
  obtain ⟨la, ca, rm, cm⟩ := c
  cases rm
  case LOCAL =>
    cases hb : la.is_polling_in_background
    case true =>
      have hE : _async_update_data ⟨la, ca, IntelliFireApiMode.LOCAL, cm⟩ pollLocal =
          updateDataFinish ⟨la, ca, IntelliFireApiMode.LOCAL, cm⟩ [] := by
        simp [_async_update_data, get_read_api, get_read_mode, Coordinator.api, hb]
      rw [hE]
      refine ⟨?_, ?_, rfl, ?_, ?_⟩
      · by_cases hf : la.failed_poll_attempts > 10 <;>
          simp [updateDataFinish, get_read_api, Coordinator.api, hb, hf]
      · by_cases hf : la.failed_poll_attempts > 10 <;>
          simp [updateDataFinish, get_read_api, Coordinator.api, hb, hf]
      · intro h1 _ _
        simp [get_read_api, Coordinator.api, hb] at h1
      · intro c' d hok
        by_cases hf : la.failed_poll_attempts > 10
        · rw [show updateDataFinish ⟨la, ca, IntelliFireApiMode.LOCAL, cm⟩ [] =
              ([], Except.error CoordinatorError.updateFailed) from by
                simp [updateDataFinish, hf]] at hok
          exact Except.noConfusion hok
        · rw [show updateDataFinish ⟨la, ca, IntelliFireApiMode.LOCAL, cm⟩ [] =
              ([], Except.ok (⟨la, ca, IntelliFireApiMode.LOCAL, cm⟩, la.data)) from by
                simp [updateDataFinish, get_read_api, Coordinator.api, hf]] at hok
          injection hok with hok'
          cases hok'
          rfl
    case false =>
      rcases hp : pollLocal (la.start_background_polling) with e | la'
      · have hE : _async_update_data ⟨la, ca, IntelliFireApiMode.LOCAL, cm⟩ pollLocal =
            ([RefreshEffect.startPolling Transport.localApi,
              RefreshEffect.syncLocalPoll FORCED_POLL_TIMEOUT_SECONDS],
             Except.error CoordinatorError.updateFailed) := by
          simp [_async_update_data, get_read_api, get_read_mode,
                Coordinator.api, Coordinator.setApi, hb, hp]
        rw [hE]
        refine ⟨?_, ?_, rfl, fun _ _ _ => rfl, ?_⟩
        · simp [get_read_api, Coordinator.api, hb]
        · simp [get_read_api, get_read_mode, Coordinator.api, hb]
        · intro c' d hok
          exact Except.noConfusion hok
      · have hE : _async_update_data ⟨la, ca, IntelliFireApiMode.LOCAL, cm⟩ pollLocal =
            updateDataFinish ⟨la', ca, IntelliFireApiMode.LOCAL, cm⟩
              [RefreshEffect.startPolling Transport.localApi,
               RefreshEffect.syncLocalPoll FORCED_POLL_TIMEOUT_SECONDS] := by
          simp [_async_update_data, get_read_api, get_read_mode,
                Coordinator.api, Coordinator.setApi, hb, hp]
        rw [hE]
        refine ⟨?_, ?_, rfl, ?_, ?_⟩
        · by_cases hf : la'.failed_poll_attempts > 10 <;>
            simp [updateDataFinish, get_read_api, Coordinator.api, hb, hf]
        · by_cases hf : la'.failed_poll_attempts > 10 <;>
            simp [updateDataFinish, get_read_api, get_read_mode, Coordinator.api, hb, hf]
        · intro _ _ hpe
          exact Except.noConfusion hpe
        · intro c' d hok
          by_cases hf : la'.failed_poll_attempts > 10
          · rw [show updateDataFinish ⟨la', ca, IntelliFireApiMode.LOCAL, cm⟩
                [RefreshEffect.startPolling Transport.localApi,
                 RefreshEffect.syncLocalPoll FORCED_POLL_TIMEOUT_SECONDS] =
                ([RefreshEffect.startPolling Transport.localApi,
                  RefreshEffect.syncLocalPoll FORCED_POLL_TIMEOUT_SECONDS],
                 Except.error CoordinatorError.updateFailed) from by
                  simp [updateDataFinish, hf]] at hok
            exact Except.noConfusion hok
          · rw [show updateDataFinish ⟨la', ca, IntelliFireApiMode.LOCAL, cm⟩
                [RefreshEffect.startPolling Transport.localApi,
                 RefreshEffect.syncLocalPoll FORCED_POLL_TIMEOUT_SECONDS] =
                ([RefreshEffect.startPolling Transport.localApi,
                  RefreshEffect.syncLocalPoll FORCED_POLL_TIMEOUT_SECONDS],
                 Except.ok (⟨la', ca, IntelliFireApiMode.LOCAL, cm⟩, la'.data)) from by
                  simp [updateDataFinish, get_read_api, Coordinator.api, hf]] at hok
            injection hok with hok'
            cases hok'
            rfl
  case CLOUD =>
    cases hb : ca.is_polling_in_background
    case true =>
      have hE : _async_update_data ⟨la, ca, IntelliFireApiMode.CLOUD, cm⟩ pollLocal =
          updateDataFinish ⟨la, ca, IntelliFireApiMode.CLOUD, cm⟩ [] := by
        simp [_async_update_data, get_read_api, get_read_mode, Coordinator.api, hb]
      rw [hE]
      refine ⟨?_, ?_, rfl, ?_, ?_⟩
      · by_cases hf : la.failed_poll_attempts > 10 <;>
          simp [updateDataFinish, get_read_api, Coordinator.api, hb, hf]
      · by_cases hf : la.failed_poll_attempts > 10 <;>
          simp [updateDataFinish, get_read_api, get_read_mode, Coordinator.api, hb, hf]
      · intro _ h2 _
        simp [get_read_mode] at h2
      · intro c' d hok
        by_cases hf : la.failed_poll_attempts > 10
        · rw [show updateDataFinish ⟨la, ca, IntelliFireApiMode.CLOUD, cm⟩ [] =
              ([], Except.error CoordinatorError.updateFailed) from by
                simp [updateDataFinish, hf]] at hok
          exact Except.noConfusion hok
        · rw [show updateDataFinish ⟨la, ca, IntelliFireApiMode.CLOUD, cm⟩ [] =
              ([], Except.ok (⟨la, ca, IntelliFireApiMode.CLOUD, cm⟩, ca.data)) from by
                simp [updateDataFinish, get_read_api, Coordinator.api, hf]] at hok
          injection hok with hok'
          cases hok'
          rfl
    case false =>
      have hE : _async_update_data ⟨la, ca, IntelliFireApiMode.CLOUD, cm⟩ pollLocal =
          updateDataFinish ⟨la, ca.start_background_polling, IntelliFireApiMode.CLOUD, cm⟩
            [RefreshEffect.startPolling Transport.cloudApi] := by
        simp [_async_update_data, get_read_api, get_read_mode,
              Coordinator.api, Coordinator.setApi, hb]
      rw [hE]
      refine ⟨?_, ?_, rfl, ?_, ?_⟩
      · by_cases hf : la.failed_poll_attempts > 10 <;>
          simp [updateDataFinish, get_read_api, Coordinator.api, hb, hf]
      · by_cases hf : la.failed_poll_attempts > 10 <;>
          simp [updateDataFinish, get_read_api, get_read_mode, Coordinator.api, hb, hf]
      · intro _ h2 _
        simp [get_read_mode] at h2
      · intro c' d hok
        by_cases hf : la.failed_poll_attempts > 10
        · rw [show updateDataFinish
              ⟨la, ca.start_background_polling, IntelliFireApiMode.CLOUD, cm⟩
              [RefreshEffect.startPolling Transport.cloudApi] =
              ([RefreshEffect.startPolling Transport.cloudApi],
               Except.error CoordinatorError.updateFailed) from by
                simp [updateDataFinish, hf]] at hok
          exact Except.noConfusion hok
        · rw [show updateDataFinish
              ⟨la, ca.start_background_polling, IntelliFireApiMode.CLOUD, cm⟩
              [RefreshEffect.startPolling Transport.cloudApi] =
              ([RefreshEffect.startPolling Transport.cloudApi],
               Except.ok (⟨la, ca.start_background_polling, IntelliFireApiMode.CLOUD, cm⟩,
                 ca.start_background_polling.data)) from by
                simp [updateDataFinish, get_read_api, Coordinator.api, hf]] at hok
          injection hok with hok'
          cases hok'
          rfl

/-- Concrete instantiation of claim_C7_refresh_behaviour: a coordinator
whose local read transport is not yet polling records the start of
background polling, and a failing forced poll surfaces as the update-failed
error. -/
theorem claim_C7_witness :
    RefreshEffect.startPolling (get_read_api freshCoordinator) ∈
      (_async_update_data freshCoordinator failingPoll).1 ∧
    (_async_update_data freshCoordinator failingPoll).2 =
      Except.error CoordinatorError.updateFailed :=
  ⟨(claim_C7_refresh_behaviour freshCoordinator failingPoll).1.mpr rfl,
   (claim_C7_refresh_behaviour freshCoordinator failingPoll).2.2.2.1 rfl rfl rfl⟩

/-- The initialization busy-wait exits with index k exactly when k is the
first check at or after its starting index at which the device no longer
reports the full placeholder identity, and k falls within the fuel. -/
theorem waitForInitializationLoop_some_iff (dataAt : Nat → IntelliFirePollData) :
    ∀ fuel i k, waitForInitializationLoop dataAt i fuel = some k ↔
      (i ≤ k ∧ k < i + fuel ∧ initialization_pending (dataAt k) = false ∧
       ∀ j, i ≤ j → j < k → initialization_pending (dataAt j) = true) := by
  intro fuel
  induction fuel with
  | zero =>
    intro i k
    simp only [waitForInitializationLoop]
    constructor
    · intro h
      exact Option.noConfusion h
    · rintro ⟨h1, h2, -⟩
      exact absurd h2 (by omega)
  | succ n ih =>
    intro i k
    simp only [waitForInitializationLoop]
    by_cases hp : initialization_pending (dataAt i) = true
    · rw [if_pos hp, ih (i + 1) k]
      constructor
      · rintro ⟨h1, h2, h3, h4⟩
        refine ⟨by omega, by omega, h3, ?_⟩
        intro j hj1 hj2
        rcases Nat.eq_or_lt_of_le hj1 with rfl | hlt
        · exact hp
        · exact h4 j hlt hj2
      · rintro ⟨h1, h2, h3, h4⟩
        have hik : i ≠ k := by
          intro he
          rw [he] at hp
          rw [h3] at hp
          exact Bool.noConfusion hp
        exact ⟨by omega, by omega, h3, fun j hj1 hj2 => h4 j (by omega) hj2⟩
    · rw [if_neg hp]
      have hp' : initialization_pending (dataAt i) = false := by
        simpa using hp
      constructor
      · intro h
        injection h with h'
        subst h'
        exact ⟨Nat.le_refl i, by omega, hp',
               fun j hj1 hj2 => absurd hj1 (by omega)⟩
      · rintro ⟨h1, h2, h3, h4⟩
        rcases Nat.eq_or_lt_of_le h1 with rfl | hlt
        · rfl
        · have := h4 i (Nat.le_refl i) hlt
          rw [hp'] at this
          exact Bool.noConfusion this

/-- The initialization busy-wait runs out of fuel exactly when every check
within the fuel still sees the full placeholder identity. -/
theorem waitForInitializationLoop_none_iff (dataAt : Nat → IntelliFirePollData) :
    ∀ fuel i, waitForInitializationLoop dataAt i fuel = none ↔
      ∀ j, i ≤ j → j < i + fuel → initialization_pending (dataAt j) = true := by
  intro fuel
  induction fuel with
  | zero =>
    intro i
    simp only [waitForInitializationLoop]
    constructor
    · intro _ j h1 h2
      exact absurd h2 (by omega)
    · intro _
      trivial
  | succ n ih =>
    intro i
    simp only [waitForInitializationLoop]
    by_cases hp : initialization_pending (dataAt i) = true
    · rw [if_pos hp, ih (i + 1)]
      constructor
      · intro h j hj1 hj2
        rcases Nat.eq_or_lt_of_le hj1 with rfl | hlt
        · exact hp
        · exact h j hlt (by omega)
      · intro h j hj1 hj2
        exact h j (by omega) (by omega)
    · rw [if_neg hp]
      constructor
      · intro h
        exact Option.noConfusion h
      · intro h
        exact absurd (h i (Nat.le_refl i) (by omega)) hp

/-- C8 amended: after the credential check and the connectivity validation
succeed, setup busy-waits at INIT_POLL_SLEEP_SECONDS = 10 second intervals
bounded by INIT_WAIT_TIMEOUT_SECONDS = 600 seconds; the wait continues
exactly while the device reports BOTH the placeholder address 127.0.0.1
and the placeholder serial "unset", ending at the first check at which
either has become non-placeholder; exhausting the bound is fatal to setup
and surfaces as the plain initialization-timeout error, not as Home
Assistant's dedicated not-ready condition. -/
theorem claim_C8_initialization_wait (lc cc : Bool) (dataAt : Nat → IntelliFirePollData)
    (hconn : lc = true ∨ cc = true) :
    INIT_POLL_SLEEP_SECONDS = 10 ∧
    INIT_WAIT_TIMEOUT_SECONDS = 600 ∧
    (∀ d, initialization_pending d = true ↔
      (d.ipv4_address = "127.0.0.1" ∧ d.serial = "unset")) ∧
    (∀ k, async_setup_entry true lc cc dataAt = Except.ok k ↔
      (k < INIT_MAX_CHECKS ∧ initialization_pending (dataAt k) = false ∧
       ∀ j, j < k → initialization_pending (dataAt j) = true)) ∧
    (async_setup_entry true lc cc dataAt = Except.error SetupError.initTimeout ↔
      ∀ j, j < INIT_MAX_CHECKS → initialization_pending (dataAt j) = true) ∧
    async_setup_entry true lc cc dataAt ≠ Except.error SetupError.notReady := by
  have hcc : (!lc && !cc) = false := by
    rcases hconn with h | h <;> simp [h]
  have hsetup : async_setup_entry true lc cc dataAt =
      (match waitForInitializationLoop dataAt 0 INIT_MAX_CHECKS with
       | none => Except.error SetupError.initTimeout
       | some i => Except.ok i) := by
    simp [async_setup_entry, hcc]
  refine ⟨rfl, rfl, ?_, ?_, ?_, ?_⟩
  · intro d
    simp [initialization_pending]
  · intro k
    rw [hsetup]
    rcases hw : waitForInitializationLoop dataAt 0 INIT_MAX_CHECKS with _ | k0
    · constructor
      · intro h
        exact Except.noConfusion h
      · rintro ⟨h1, h2, -⟩
        have hall := (waitForInitializationLoop_none_iff dataAt INIT_MAX_CHECKS 0).mp hw
          k (Nat.zero_le k) (by omega)
        rw [h2] at hall
        exact Bool.noConfusion hall
    · have hch := (waitForInitializationLoop_some_iff dataAt INIT_MAX_CHECKS 0 k0).mp hw
      constructor
      · intro h
        injection h with h'
        subst h'
        exact ⟨by have := hch.2.1; omega, hch.2.2.1,
               fun j hj => hch.2.2.2 j (Nat.zero_le j) hj⟩
      · rintro ⟨h1, h2, h3⟩
        have hk : k = k0 := by
          rcases Nat.lt_trichotomy k k0 with hl | he | hg
          · have := hch.2.2.2 k (Nat.zero_le k) hl
            rw [h2] at this
            exact Bool.noConfusion this
          · exact he
          · have := h3 k0 hg
            rw [hch.2.2.1] at this
            exact Bool.noConfusion this
        rw [hk]
  · rw [hsetup]
    rcases hw : waitForInitializationLoop dataAt 0 INIT_MAX_CHECKS with _ | k0
    · constructor
      · intro _ j hj
        exact (waitForInitializationLoop_none_iff dataAt INIT_MAX_CHECKS 0).mp hw
          j (Nat.zero_le j) (by omega)
      · intro _
        rfl
    · have hch := (waitForInitializationLoop_some_iff dataAt INIT_MAX_CHECKS 0 k0).mp hw
      constructor
      · intro h
        exact Except.noConfusion h
      · intro h
        have hpk := h k0 (by have := hch.2.1; omega)
        rw [hch.2.2.1] at hpk
        exact Bool.noConfusion hpk
  · rw [hsetup]
    rcases hw : waitForInitializationLoop dataAt 0 INIT_MAX_CHECKS with _ | k0
    · intro h
      injection h with h'
      exact SetupError.noConfusion h'
    · intro h
      exact Except.noConfusion h

/-- Concrete instantiation of claim_C8_initialization_wait: a device that
reports a real identity from the start lets setup finish its wait at the
very first check. -/
theorem claim_C8_witness :
    async_setup_entry true true true (fun _ => sampleData) = Except.ok 0 :=
  ((claim_C8_initialization_wait true true (fun _ => sampleData) (Or.inl rfl)).2.2.2.1 0).mpr
    ⟨by decide, by decide, fun j hj => absurd hj (Nat.not_lt_zero j)⟩

/-- C8 counterexample: a device reporting a real address while its serial
is still the placeholder "unset" has not yet left its factory-default
identity in the claim's sense, yet the loop condition is already false and
setup completes its wait at the very first check; and a device that never
initializes makes setup fail with the initialization-timeout error, which
is not the not-ready condition the claim names. -/
theorem claim_C8_counterexample :
    halfInitializedData.serial = "unset" ∧
    initialization_pending halfInitializedData = false ∧
    async_setup_entry true true true (fun _ => halfInitializedData) = Except.ok 0 ∧
    async_setup_entry true true true (fun _ => placeholderData) =
      Except.error SetupError.initTimeout ∧
    (Except.error SetupError.initTimeout : Except SetupError Nat) ≠
      Except.error SetupError.notReady := by
  refine ⟨rfl, by decide, rfl, ?_, by decide⟩
  rfl

/-- C9 amended: on every access the identity descriptor recomputes its
fields from the current coordinator state: manufacturer and model are
constant, the identifier serial and the firmware version come from the
current read transport's snapshot (for both read modes), and the
management URL is always built as http:// plus the locally configured
fireplace IP plus /poll, independent of the read mode and of any
snapshot. -/
theorem claim_C9_device_info_fields (c : Coordinator) :
    (device_info c).manufacturer = "Hearth and Home" ∧
    (device_info c).model = "IFT-WFM" ∧
    (device_info c).identifiers = (c.api (get_read_api c)).data.serial ++ "]" ∧
    (device_info c).sw_version = (c.api (get_read_api c)).data.fw_ver_str ∧
    (device_info c).configuration_url = "http://" ++ c._local_api.fireplace_ip ++ "/poll" :=
  ⟨rfl, rfl, rfl, rfl, rfl⟩

/-- C9 counterexample: two coordinators in read mode CLOUD with identical
read transports and snapshots but different locally configured fireplace
IPs produce different identity descriptors, the management URL following
the local IP: the descriptor is not computed from the current read
transport's snapshot, contradicting the claim for the management URL. -/
theorem claim_C9_counterexample :
    (cloudReadCoordinatorA.api (get_read_api cloudReadCoordinatorA)).data =
      (cloudReadCoordinatorB.api (get_read_api cloudReadCoordinatorB)).data ∧
    get_read_mode cloudReadCoordinatorA = get_read_mode cloudReadCoordinatorB ∧
    device_info cloudReadCoordinatorA ≠ device_info cloudReadCoordinatorB ∧
    (device_info cloudReadCoordinatorA).configuration_url = "http://192.168.1.50/poll" ∧
    (device_info cloudReadCoordinatorB).configuration_url = "http://192.168.9.99/poll" :=
  ⟨rfl, rfl, by decide, rfl, rfl⟩

end IntelliFire
